import Mathlib

/-!
Shallow embedding of `src/vision-books.py`, a daily media-tracking pipeline:
source adapters (Audible, Spotify, bookshelf camera) feed per-source delta
extraction, the deltas go to an external LLaMA service for disambiguation,
the result is POSTed to a reporter endpoint, and a scheduler loop drives one
cycle per day.

Modelling conventions:
* `datetime` values are integers (`Int`) ordered as timestamps; every call to
  `datetime.now()` inside one cycle is modelled by the single per-cycle value
  `CycleEnv.now`.
* Python exceptions are modelled with `Except String`; a raised exception is
  `.error msg` and propagates exactly where Python would propagate it.
* The camera capture plus OpenCV processing (`capture_image`/`process_image`)
  is an external device; its outcome per cycle is an environment input
  `CycleEnv.vision : Except String (List String)` — either the list of titles
  read off the frame, or an exception raised mid-capture/processing.
* Network responses (LLaMA server, reporter API) are environment inputs
  carrying the HTTP status code and, for LLaMA, the response body.
* `datetime.fromisoformat` applied to a LLaMA response record's timestamp
  string is a library routine; each record carries its parse outcome as
  `Except String Int` (`.error` = the `ValueError` the parse would raise).
* Python `set` is modelled by `Finset String`; `list(someSet)` has
  unspecified order, so set-derived collections stay `Finset`s.
-/

/-- A raw record from `AudibleClient.get_user_library`:
`{"title": ..., "author": ..., "date_added": ...}`. -/
structure RawAudioBook where
  title : String
  author : String
  date_added : Int
deriving DecidableEq, Repr

/-- A raw record from `SpotifyClient.get_recently_played`:
`{"track": ..., "artist": ..., "played_at": ...}`. -/
structure RawTrack where
  track : String
  artist : String
  played_at : Int
deriving DecidableEq, Repr

/-- The pydantic model `MediaItem(title, creator, type, timestamp)`. -/
structure MediaItem where
  title : String
  creator : String
  type : String
  timestamp : Int
deriving DecidableEq, Repr

/-- The pydantic model `DailyUpdate(date, new_items)`. -/
structure DailyUpdate where
  date : Int
  new_items : List MediaItem
deriving DecidableEq, Repr

/-- One record of the LLaMA server's `new_items` response body; `timestamp`
holds the outcome of `datetime.fromisoformat` on the record's raw timestamp
string (`.error` when the string is malformed and the parse raises). -/
structure RawProcessedItem where
  title : String
  creator : String
  type : String
  timestamp : Except String Int
deriving Repr

/-- The mutable fields of the running program: `MediaTracker.last_update_time`
(the scalar watermark) and `BookshelfScanner.last_scan` (the vision
seen-set). -/
structure TrackerState where
  last_update_time : Int
  last_scan : Finset String
deriving DecidableEq

/-- Everything external a single cycle consumes: adapter outcomes, the
camera/OpenCV outcome, the wall clock, and both HTTP responses. -/
structure CycleEnv where
  audible : Except String (List RawAudioBook)
  spotify : Except String (List RawTrack)
  vision : Except String (List String)
  now : Int
  llama_status : Nat
  llama_items : List RawProcessedItem
  api_status : Nat

/-- Embeds `BookshelfScanner.get_new_books` as a function of the processed
titles and the prior `last_scan`:
`current_books = set(...); new_books = current_books - last_scan;
self.last_scan = current_books; return list(new_books)`.
Returns (the new books, the updated `last_scan`). -/
def get_new_books (scanned : List String) (last_scan : Finset String) :
    Finset String × Finset String :=
  let current_books := scanned.toFinset
  let new_books := current_books \ last_scan
  (new_books, current_books)

/-- Embeds `MediaTracker.get_new_audiobooks`: filter the library to
`date_added > last_update_time` and build `MediaItem`s. -/
def get_new_audiobooks (library : List RawAudioBook) (last_update_time : Int) :
    List MediaItem :=
  (library.filter (fun book => last_update_time < book.date_added)).map
    (fun book =>
      { title := book.title, creator := book.author, type := "audiobook",
        timestamp := book.date_added })

/-- Embeds `MediaTracker.get_new_music`: filter recently played tracks to
`played_at > last_update_time` and build `MediaItem`s. -/
def get_new_music (recent_tracks : List RawTrack) (last_update_time : Int) :
    List MediaItem :=
  (recent_tracks.filter (fun track => last_update_time < track.played_at)).map
    (fun track =>
      { title := track.track, creator := track.artist, type := "music",
        timestamp := track.played_at })

/-- The `MediaItem` built for one scanned title in
`MediaTracker.get_new_physical_books`. -/
def mk_physical_book (now : Int) (title : String) : MediaItem :=
  { title := title, creator := "Unknown", type := "physical_book",
    timestamp := now }

/-- Embeds `MediaTracker.get_new_physical_books`: run the scanner (whose
capture/processing may raise) and wrap each new title; also yields the
scanner's updated `last_scan`. On an exception nothing is returned and
`last_scan` is not assigned. -/
def get_new_physical_books (vision : Except String (List String)) (now : Int)
    (last_scan : Finset String) :
    Except String (Finset MediaItem × Finset String) :=
  match vision with
  | .error e => .error e
  | .ok scanned =>
      let r := get_new_books scanned last_scan
      .ok (r.1.image (mk_physical_book now), r.2)

/-- The dict built by `MediaTracker.collect_new_data`:
`{"audiobooks": ..., "music": ..., "physical_books": ...}`. -/
structure CollectedData where
  audiobooks : List MediaItem
  music : List MediaItem
  physical_books : Finset MediaItem
deriving DecidableEq

/-- Embeds `MediaTracker.collect_new_data`. The dict literal evaluates
`get_new_audiobooks`, `get_new_music`, `get_new_physical_books` in that
order, with no per-source exception handling, so the first exception
propagates and aborts collection. The only state the step mutates is
`last_scan`, and only when the vision step completes; the returned
`TrackerState` is the state after whatever mutation happened. -/
def collect_new_data (env : CycleEnv) (s : TrackerState) :
    Except String CollectedData × TrackerState :=
  match env.audible with
  | .error e => (.error e, s)
  | .ok library =>
    match env.spotify with
    | .error e => (.error e, s)
    | .ok recent_tracks =>
      match get_new_physical_books env.vision env.now s.last_scan with
      | .error e => (.error e, s)
      | .ok pb =>
        (.ok { audiobooks := get_new_audiobooks library s.last_update_time,
               music := get_new_music recent_tracks s.last_update_time,
               physical_books := pb.1 },
         { s with last_scan := pb.2 })

/-- Embeds `LLaMAv3Client.process_data`: POST to the LLaMA server; on
status 200
return the body's `new_items`, otherwise raise
`Exception("LLaMA v3 server error: ...")`. -/
def process_data (llama_status : Nat) (llama_items : List RawProcessedItem) :
    Except String (List RawProcessedItem) :=
  if llama_status = 200 then .ok llama_items
  else .error "LLaMA v3 server error"

/-- The list comprehension in `MediaTracker.generate_daily_update` that turns
the LLaMA response records into `MediaItem`s: built left to right, and the
first `datetime.fromisoformat` failure raises out of the whole
comprehension. -/
def parse_new_items : List RawProcessedItem → Except String (List MediaItem)
  | [] => .ok []
  | item :: rest =>
    match item.timestamp with
    | .error e => .error e
    | .ok t =>
      match parse_new_items rest with
      | .error e => .error e
      | .ok items =>
        .ok ({ title := item.title, creator := item.creator,
               type := item.type, timestamp := t } :: items)

/-- Embeds `MediaTracker.generate_daily_update`: collect, send to LLaMA,
parse the
response, build the `DailyUpdate`, and only then assign
`self.last_update_time = datetime.now()`. Any exception on the way
propagates, leaving `last_update_time` unassigned (but `last_scan` as
already mutated during collection). -/
def generate_daily_update (env : CycleEnv) (s : TrackerState) :
    Except String DailyUpdate × TrackerState :=
  match collect_new_data env s with
  | (.error e, s1) => (.error e, s1)
  | (.ok _data, s1) =>
    match process_data env.llama_status env.llama_items with
    | .error e => (.error e, s1)
    | .ok processed_data =>
      match parse_new_items processed_data with
      | .error e => (.error e, s1)
      | .ok new_items =>
        (.ok { date := env.now, new_items := new_items },
         { s1 with last_update_time := env.now })

/-- Embeds `MediaTracker.send_update_to_api`: POST the update; a response
with
status other than 200 only prints `Failed to send update: ...`. Never
raises (a response was received); returns the log lines printed. -/
def send_update_to_api (api_status : Nat) (_update : DailyUpdate) :
    List String :=
  if api_status ≠ 200 then ["Failed to send update"] else []

/-- What one iteration of the `run_daily` loop ends with: either the update
was computed and POSTed (with the delivery log lines), or an exception was
caught by the `except` clause and logged. -/
inductive CycleOutcome where
  | sent (update : DailyUpdate) (logs : List String)
  | errorCaught (e : String)
deriving DecidableEq

/-- One iteration of `MediaTracker.run_daily`'s `while True` body: run the
cycle inside `try`, catch any exception, then `time.sleep(86400)`
unconditionally. Returns (state carried to the next iteration, outcome,
seconds slept). -/
def run_daily_step (env : CycleEnv) (s : TrackerState) :
    TrackerState × CycleOutcome × Nat :=
  match generate_daily_update env s with
  | (.ok update, s1) =>
      (s1, .sent update (send_update_to_api env.api_status update), 86400)
  | (.error e, s1) => (s1, .errorCaught e, 86400)

/-- The `run_daily` loop over a finite prefix of iterations, one environment
per day: every iteration's outcome and sleep are recorded, and the state
flows from one iteration to the next. -/
def run_daily_trace (envs : List CycleEnv) (s : TrackerState) :
    TrackerState × List (CycleOutcome × Nat) :=
  match envs with
  | [] => (s, [])
  | env :: rest =>
      let step := run_daily_step env s
      let tail := run_daily_trace rest step.1
      (tail.1, (step.2.1, step.2.2) :: tail.2)

/-! Helper lemmas shared by the claim theorems. -/

/-- Collection never touches the scalar watermark `last_update_time`. -/
theorem collect_new_data_wm (env : CycleEnv) (s : TrackerState) :
    (collect_new_data env s).2.last_update_time = s.last_update_time := by
  rcases env with ⟨a, sp, v, now, ls, li, api⟩
  cases a <;> cases sp <;> cases v <;> rfl

/-- An exception from the Audible adapter propagates out of collection with
the state untouched. -/
theorem collect_new_data_audible_error (env : CycleEnv) (s : TrackerState)
    (e : String) (h : env.audible = .error e) :
    collect_new_data env s = (.error e, s) := by
  unfold collect_new_data
  rw [h]

/-- An exception from the Spotify adapter propagates out of collection with
the state untouched. -/
theorem collect_new_data_spotify_error (env : CycleEnv) (s : TrackerState)
    (e : String) (h : env.spotify = .error e) :
    (collect_new_data env s).2 = s ∧
    ∃ e', (collect_new_data env s).1 = .error e' := by
  cases ha : env.audible <;> simp [collect_new_data, ha, h]

/-- An exception from the camera/OpenCV step propagates out of collection
with the state (in particular the seen-set) untouched. -/
theorem collect_new_data_vision_error (env : CycleEnv) (s : TrackerState)
    (e : String) (h : env.vision = .error e) :
    (collect_new_data env s).2 = s ∧
    ∃ e', (collect_new_data env s).1 = .error e' := by
  cases ha : env.audible <;> cases hsp : env.spotify <;>
    simp [collect_new_data, get_new_physical_books, ha, hsp, h]

/-- When all three adapters succeed, collection returns the three deltas and
replaces the seen-set with the scanned titles. -/
theorem collect_new_data_ok (env : CycleEnv) (s : TrackerState)
    (library : List RawAudioBook) (recent_tracks : List RawTrack)
    (scanned : List String) (ha : env.audible = .ok library)
    (hsp : env.spotify = .ok recent_tracks) (hv : env.vision = .ok scanned) :
    collect_new_data env s =
      (.ok { audiobooks := get_new_audiobooks library s.last_update_time,
             music := get_new_music recent_tracks s.last_update_time,
             physical_books :=
               (get_new_books scanned s.last_scan).1.image
                 (mk_physical_book env.now) },
       { s with last_scan := scanned.toFinset }) := by
  simp [collect_new_data, get_new_physical_books, ha, hsp, hv, get_new_books]

/-- A non-200 LLaMA response makes the cycle raise, and the resulting state
is exactly the state collection left behind. -/
theorem generate_daily_update_llama_error (env : CycleEnv) (s : TrackerState)
    (h : env.llama_status ≠ 200) :
    (∃ e, (generate_daily_update env s).1 = .error e) ∧
    (generate_daily_update env s).2 = (collect_new_data env s).2 := by
  rcases hc : collect_new_data env s with ⟨cr, s1⟩
  cases cr <;> simp [generate_daily_update, process_data, hc, h]

/-- A cycle that completes (returns an update) has set the scalar watermark
to the cycle's `now`. -/
theorem generate_daily_update_ok_wm (env : CycleEnv) (s : TrackerState)
    (u : DailyUpdate) (h : (generate_daily_update env s).1 = .ok u) :
    (generate_daily_update env s).2.last_update_time = env.now := by
  rcases hc : collect_new_data env s with ⟨cr, s1⟩
  cases cr with
  | error e => simp [generate_daily_update, hc] at h
  | ok d =>
    rcases hp : process_data env.llama_status env.llama_items with e | processed
    · simp [generate_daily_update, hc, hp] at h
    · rcases hn : parse_new_items processed with e | items
      · simp [generate_daily_update, hc, hp, hn] at h
      · simp [generate_daily_update, hc, hp, hn]

/-- A cycle that raises leaves the scalar watermark unchanged. -/
theorem generate_daily_update_error_wm (env : CycleEnv) (s : TrackerState)
    (e : String) (h : (generate_daily_update env s).1 = .error e) :
    (generate_daily_update env s).2.last_update_time = s.last_update_time := by
  have hw := collect_new_data_wm env s
  rcases hc : collect_new_data env s with ⟨cr, s1⟩
  rw [hc] at hw
  cases cr with
  | error e0 => simpa [generate_daily_update, hc] using hw
  | ok d =>
    rcases hp : process_data env.llama_status env.llama_items with e0 | processed
    · simpa [generate_daily_update, hc, hp] using hw
    · rcases hn : parse_new_items processed with e0 | items
      · simpa [generate_daily_update, hc, hp, hn] using hw
      · simp [generate_daily_update, hc, hp, hn] at h

/-- A record whose timestamp string fails to parse makes the whole response
comprehension raise. -/
theorem parse_new_items_error_of_mem (l : List RawProcessedItem)
    (item : RawProcessedItem) (e : String) (hmem : item ∈ l)
    (hbad : item.timestamp = .error e) :
    ∃ e', parse_new_items l = .error e' := by
  induction l with
  | nil => cases hmem
  | cons hd tl ih =>
    rcases List.mem_cons.mp hmem with rfl | hmem'
    · exact ⟨e, by simp [parse_new_items, hbad]⟩
    · rcases hht : hd.timestamp with e0 | t
      · exact ⟨e0, by simp [parse_new_items, hht]⟩
      · obtain ⟨e', he'⟩ := ih hmem'
        exact ⟨e', by simp [parse_new_items, hht, he']⟩

/-- A collection failure makes the whole cycle return that exception, with
the state collection left behind. -/
theorem generate_daily_update_collect_error (env : CycleEnv)
    (s : TrackerState) (e : String)
    (h : (collect_new_data env s).1 = .error e) :
    generate_daily_update env s = (.error e, (collect_new_data env s).2) := by
  rcases hc : collect_new_data env s with ⟨cr, s1⟩
  rw [hc] at h
  cases cr with
  | ok d => simp at h
  | error e0 =>
    have he : e0 = e := by simpa using h
    subst he
    simp [generate_daily_update, hc]

/-- Both branches of the scheduler loop body sleep the full period. -/
theorem run_daily_step_sleep (env : CycleEnv) (s : TrackerState) :
    (run_daily_step env s).2.2 = 86400 := by
  unfold run_daily_step
  rcases generate_daily_update env s with ⟨gr, s1⟩
  cases gr <;> rfl

/-! Claim theorems. -/

/-- C1 counterexample: the claim says an empty vision snapshot leaves the
seen-set watermark unchanged, but `get_new_books` replaces `last_scan`
unconditionally: with prior seen-set `{"Dune", "Foundation"}` and an empty
capture, the seen-set after the scan is `∅`, not the prior set. -/
theorem C1_counterexample :
    (get_new_books [] ({"Dune", "Foundation"} : Finset String)).2 ≠
      ({"Dune", "Foundation"} : Finset String) := by decide

/-- C1 (amended): an empty vision snapshot is not special-cased — the scan
yields an empty delta and resets the seen-set watermark to `∅` (full
replacement, like any other snapshot); only a capture that raises an
exception leaves the tracker state, seen-set included, unchanged — and such
an exception aborts the whole collection step. -/
theorem C1_amended (last_scan : Finset String) (env : CycleEnv)
    (s : TrackerState) (e : String) (hv : env.vision = .error e) :
    (get_new_books [] last_scan).1 = ∅ ∧
    (get_new_books [] last_scan).2 = ∅ ∧
    (collect_new_data env s).2 = s ∧
    (∃ e', (collect_new_data env s).1 = .error e') := by
  obtain ⟨h1, h2⟩ := collect_new_data_vision_error env s e hv
  exact ⟨by simp [get_new_books], by simp [get_new_books], h1, h2⟩

/-- C1 witness: the amended theorem applied to the prior seen-set `{"Dune"}`
and a cycle whose capture raises. -/
theorem C1_amended_witness :
    (get_new_books [] ({"Dune"} : Finset String)).1 = ∅ ∧
    (get_new_books [] ({"Dune"} : Finset String)).2 = ∅ ∧
    (collect_new_data
        { audible := .ok [], spotify := .ok [], vision := .error "no frame",
          now := 0, llama_status := 200, llama_items := [], api_status := 200 }
        { last_update_time := 0, last_scan := ∅ }).2 =
      { last_update_time := 0, last_scan := ∅ } ∧
    (∃ e', (collect_new_data
        { audible := .ok [], spotify := .ok [], vision := .error "no frame",
          now := 0, llama_status := 200, llama_items := [], api_status := 200 }
        { last_update_time := 0, last_scan := ∅ }).1 = .error e') :=
  C1_amended {"Dune"} _ _ "no frame" rfl

/-- C5: for a (non-empty) vision snapshot, the new-item delta is the
snapshot's identifiers minus the prior seen-set, the next seen-set is
exactly the snapshot's identifiers (replacement, not union: a previously
seen title absent from the snapshot is dropped from the seen-set), and a
title absent from one scan and present in a later scan is reported as new
again. -/
theorem C5_seen_set_replacement (scanned : List String)
    (last_scan : Finset String) (_hne : scanned ≠ []) :
    (get_new_books scanned last_scan).1 = scanned.toFinset \ last_scan ∧
    (get_new_books scanned last_scan).2 = scanned.toFinset ∧
    (∀ x, x ∈ last_scan → x ∉ scanned.toFinset →
        x ∉ (get_new_books scanned last_scan).2) ∧
    (∀ x (later : List String), x ∉ scanned.toFinset → x ∈ later.toFinset →
        x ∈ (get_new_books later (get_new_books scanned last_scan).2).1) := by
  refine ⟨rfl, rfl, fun x _ hx => hx, fun x later hx hx2 => ?_⟩
  simp only [get_new_books, Finset.mem_sdiff]
  exact ⟨hx2, hx⟩

/-- C5 witness: snapshot `["Dune"]` against prior seen-set
`{"Dune", "Foundation"}`; a later snapshot `["Foundation"]` reports
`"Foundation"` as new again. -/
theorem C5_witness :
    "Foundation" ∈ (get_new_books ["Foundation"]
        (get_new_books ["Dune"] ({"Dune", "Foundation"} : Finset String)).2).1 :=
  (C5_seen_set_replacement ["Dune"] {"Dune", "Foundation"} (by decide)).2.2.2
    "Foundation" ["Foundation"] (by decide) (by decide)

/-- C10: every canonical item built from the vision source carries creator
"Unknown", kind `physical_book`, the normalization-time timestamp `now`
(the scan yields bare titles with no per-item time), and a title that came
from the scan; and duplicate titles within one snapshot are collapsed before
delta computation because the snapshot is converted to a set. -/
theorem C10_vision_normalization (scanned : List String) (now : Int)
    (last_scan : Finset String) (items : Finset MediaItem)
    (next : Finset String)
    (h : get_new_physical_books (.ok scanned) now last_scan = .ok (items, next)) :
    (∀ it ∈ items, it.creator = "Unknown" ∧ it.type = "physical_book" ∧
        it.timestamp = now ∧ it.title ∈ scanned) ∧
    (∀ t rest, get_new_books (t :: t :: rest) last_scan =
        get_new_books (t :: rest) last_scan) := by
  simp only [get_new_physical_books, Except.ok.injEq, Prod.mk.injEq] at h
  obtain ⟨hi, _⟩ := h
  constructor
  · intro it hit
    rw [← hi] at hit
    obtain ⟨t, ht, hmk⟩ := Finset.mem_image.mp hit
    have htl : t ∈ scanned := by
      have : t ∈ scanned.toFinset \ last_scan := ht
      exact List.mem_toFinset.mp (Finset.mem_sdiff.mp this).1
    subst hmk
    exact ⟨rfl, rfl, rfl, htl⟩
  · intro t rest
    simp [get_new_books, List.toFinset_cons, Finset.insert_idem]

/-- C10 witness: the theorem applied to the snapshot `["Dune"]` at time 7
with empty prior seen-set. -/
theorem C10_witness :
    (mk_physical_book 7 "Dune").creator = "Unknown" ∧
    (mk_physical_book 7 "Dune").type = "physical_book" ∧
    (mk_physical_book 7 "Dune").timestamp = 7 ∧
    (mk_physical_book 7 "Dune").title ∈ ["Dune"] :=
  (C10_vision_normalization ["Dune"] 7 ∅ {mk_physical_book 7 "Dune"} {"Dune"}
      rfl).1 (mk_physical_book 7 "Dune") (by decide)

/-- C2 counterexample: with the music adapter raising and the audiobook
adapter returning two fresh items (and a LLaMA server that would answer
200), the cycle does not proceed to disambiguation — the adapter's exception
propagates out of `collect_new_data`, and `generate_daily_update` returns it
instead of an update, so the surviving sources' items never reach the
disambiguation step. -/
theorem C2_counterexample :
    (generate_daily_update
      { audible := .ok
          [{ title := "Audiobook 1", author := "Author 1", date_added := 10 },
           { title := "Audiobook 2", author := "Author 2", date_added := 11 }],
        spotify := .error "Spotify down", vision := .ok [], now := 12,
        llama_status := 200, llama_items := [], api_status := 200 }
      { last_update_time := 0, last_scan := ∅ }).1 =
      .error "Spotify down" := rfl

/-- C2 (amended): an exception from any single source adapter during
collection is not isolated — it propagates and aborts the whole cycle (it is
caught only by the scheduler loop): `generate_daily_update` returns an
error, no source's delta reaches disambiguation, and the tracker state —
both the scalar watermark and the vision seen-set — is left exactly as it
was before the cycle. -/
theorem C2_amended (env : CycleEnv) (s : TrackerState) (e : String)
    (h : env.audible = .error e ∨ env.spotify = .error e ∨
      env.vision = .error e) :
    (∃ e', (generate_daily_update env s).1 = .error e') ∧
    (generate_daily_update env s).2 = s := by
  have hcol : (∃ e', (collect_new_data env s).1 = .error e') ∧
      (collect_new_data env s).2 = s := by
    rcases h with h | h | h
    · rw [collect_new_data_audible_error env s e h]
      exact ⟨⟨e, rfl⟩, rfl⟩
    · obtain ⟨h1, h2⟩ := collect_new_data_spotify_error env s e h
      exact ⟨h2, h1⟩
    · obtain ⟨h1, h2⟩ := collect_new_data_vision_error env s e h
      exact ⟨h2, h1⟩
  obtain ⟨⟨e', he'⟩, hst⟩ := hcol
  rw [generate_daily_update_collect_error env s e' he']
  exact ⟨⟨e', rfl⟩, hst⟩

/-- C2 witness: the amended theorem applied to a cycle where only the music
adapter raises. -/
theorem C2_amended_witness :
    (generate_daily_update
      { audible := .ok
          [{ title := "Audiobook 1", author := "Author 1", date_added := 10 }],
        spotify := .error "Spotify down", vision := .ok ["Dune"], now := 12,
        llama_status := 200, llama_items := [], api_status := 200 }
      { last_update_time := 0, last_scan := ∅ }).2 =
      { last_update_time := 0, last_scan := ∅ } :=
  (C2_amended _ _ "Spotify down" (Or.inr (Or.inl rfl))).2

/-- C3: a non-2xx disambiguation response makes the cycle raise before the
report step: the scheduler iteration ends in a caught error (no report is
sent), the scalar watermark is unchanged, and the audiobook delta computed
against the watermark after the failed cycle is the same as against the
watermark before it, so the failed cycle's window stays covered. -/
theorem C3_disambiguation_failure (env : CycleEnv) (s : TrackerState)
    (h : env.llama_status < 200 ∨ 300 ≤ env.llama_status) :
    (∃ e, (run_daily_step env s).2.1 = CycleOutcome.errorCaught e) ∧
    (run_daily_step env s).1.last_update_time = s.last_update_time ∧
    (∀ library,
      get_new_audiobooks library (run_daily_step env s).1.last_update_time =
        get_new_audiobooks library s.last_update_time) := by
  have hne : env.llama_status ≠ 200 := by omega
  obtain ⟨⟨e, he⟩, hst⟩ := generate_daily_update_llama_error env s hne
  have hwm : (generate_daily_update env s).2.last_update_time =
      s.last_update_time := by
    rw [hst]
    exact collect_new_data_wm env s
  rcases hg : generate_daily_update env s with ⟨gr, s1⟩
  rw [hg] at he hwm
  cases gr with
  | ok u => simp at he
  | error e0 =>
    have h1 : (run_daily_step env s).1 = s1 := by simp [run_daily_step, hg]
    have h2 : s1.last_update_time = s.last_update_time := hwm
    refine ⟨⟨e0, by simp [run_daily_step, hg]⟩, ?_, ?_⟩
    · rw [h1, h2]
    · intro library
      rw [h1, h2]

/-- C3 witness: the theorem applied to a cycle whose LLaMA server answers
500. -/
theorem C3_witness :
    (run_daily_step
      { audible := .ok [], spotify := .ok [], vision := .ok [], now := 9,
        llama_status := 500, llama_items := [], api_status := 200 }
      { last_update_time := 3, last_scan := ∅ }).1.last_update_time = 3 :=
  (C3_disambiguation_failure _ _ (Or.inr (by decide))).2.1

/-- C4 counterexample: the claim says a malformed disambiguation-response
record is dropped individually with the rest of the delta kept, but one
record whose timestamp fails `fromisoformat` makes the whole cycle raise:
with one well-formed and one malformed record, `generate_daily_update`
returns the parse error instead of an update containing the good record. -/
theorem C4_counterexample :
    (generate_daily_update
      { audible := .ok [], spotify := .ok [], vision := .ok [], now := 5,
        llama_status := 200,
        llama_items :=
          [{ title := "Good Item", creator := "Someone", type := "music",
             timestamp := .ok 3 },
           { title := "Bad Item", creator := "Someone", type := "music",
             timestamp := .error "Invalid isoformat string" }],
        api_status := 200 }
      { last_update_time := 0, last_scan := ∅ }).1 =
      .error "Invalid isoformat string" := rfl

/-- C4 (amended): a single raw item with malformed fields is not dropped
individually — a disambiguation-response record whose timestamp string fails
to parse raises and aborts the whole cycle: no update is produced, the
scalar watermark stays unchanged, and the iteration ends in a caught error
rather than a sent report. -/
theorem C4_amended (env : CycleEnv) (s : TrackerState)
    (item : RawProcessedItem) (e : String) (hmem : item ∈ env.llama_items)
    (hbad : item.timestamp = .error e) :
    (∃ e', (generate_daily_update env s).1 = .error e') ∧
    (run_daily_step env s).1.last_update_time = s.last_update_time ∧
    (∀ u logs, (run_daily_step env s).2.1 ≠ CycleOutcome.sent u logs) := by
  have hg : ∃ e', (generate_daily_update env s).1 = .error e' := by
    rcases hc : collect_new_data env s with ⟨cr, s1⟩
    cases cr with
    | error e0 => exact ⟨e0, by simp [generate_daily_update, hc]⟩
    | ok d =>
      rcases hp : process_data env.llama_status env.llama_items
        with e0 | processed
      · exact ⟨e0, by simp [generate_daily_update, hc, hp]⟩
      · have hproc : env.llama_items = processed := by
          unfold process_data at hp
          split at hp
          · exact Except.ok.inj hp
          · simp at hp
        obtain ⟨e', he'⟩ :=
          parse_new_items_error_of_mem env.llama_items item e hmem hbad
        rw [hproc] at he'
        exact ⟨e', by simp [generate_daily_update, hc, hp, he']⟩
  obtain ⟨e', he'⟩ := hg
  have hwm := generate_daily_update_error_wm env s e' he'
  rcases hgp : generate_daily_update env s with ⟨gr, s1⟩
  rw [hgp] at he' hwm
  cases gr with
  | ok u => simp at he'
  | error e0 =>
    refine ⟨⟨e0, by simp [hgp]⟩,
      by simpa [run_daily_step, hgp] using hwm, ?_⟩
    intro u logs hcon
    simp [run_daily_step, hgp] at hcon

/-- C4 witness: the amended theorem applied to a response holding one good
and one malformed record. -/
theorem C4_amended_witness :
    (run_daily_step
      { audible := .ok [], spotify := .ok [], vision := .ok [], now := 5,
        llama_status := 200,
        llama_items :=
          [{ title := "Good Item", creator := "Someone", type := "music",
             timestamp := .ok 3 },
           { title := "Bad Item", creator := "Someone", type := "music",
             timestamp := .error "Invalid isoformat string" }],
        api_status := 200 }
      { last_update_time := 0, last_scan := ∅ }).1.last_update_time = 0 :=
  (C4_amended _ _
      { title := "Bad Item", creator := "Someone", type := "music",
        timestamp := .error "Invalid isoformat string" }
      "Invalid isoformat string"
      (List.mem_cons_of_mem _ (List.mem_cons_self _ _)) rfl).2.1

/-- C6: the scalar-watermark deltas are pure filters of the snapshot by the
watermark: an item is in the audiobook (resp. music) delta iff it is the
normalization of a snapshot record whose timestamp is strictly after the
watermark, and every delta item carries a timestamp strictly after the
watermark — so a record at or before the watermark is excluded. -/
theorem C6_scalar_delta (library : List RawAudioBook)
    (recent_tracks : List RawTrack) (wm : Int) :
    (∀ it, it ∈ get_new_audiobooks library wm ↔
        ∃ book ∈ library, wm < book.date_added ∧
          it = { title := book.title, creator := book.author,
                 type := "audiobook", timestamp := book.date_added }) ∧
    (∀ it ∈ get_new_audiobooks library wm, wm < it.timestamp) ∧
    (∀ it, it ∈ get_new_music recent_tracks wm ↔
        ∃ track ∈ recent_tracks, wm < track.played_at ∧
          it = { title := track.track, creator := track.artist,
                 type := "music", timestamp := track.played_at }) ∧
    (∀ it ∈ get_new_music recent_tracks wm, wm < it.timestamp) := by
  refine ⟨fun it => ⟨fun hit => ?_, fun hex => ?_⟩, fun it hit => ?_,
    fun it => ⟨fun hit => ?_, fun hex => ?_⟩, fun it hit => ?_⟩
  · obtain ⟨book, hb, rfl⟩ := List.mem_map.mp hit
    obtain ⟨hbl, hp⟩ := List.mem_filter.mp hb
    exact ⟨book, hbl, by simpa using hp, rfl⟩
  · obtain ⟨book, hbl, hlt, rfl⟩ := hex
    exact List.mem_map.mpr
      ⟨book, List.mem_filter.mpr ⟨hbl, by simpa using hlt⟩, rfl⟩
  · obtain ⟨book, hb, rfl⟩ := List.mem_map.mp hit
    simpa using (List.mem_filter.mp hb).2
  · obtain ⟨track, ht, rfl⟩ := List.mem_map.mp hit
    obtain ⟨htl, hp⟩ := List.mem_filter.mp ht
    exact ⟨track, htl, by simpa using hp, rfl⟩
  · obtain ⟨track, htl, hlt, rfl⟩ := hex
    exact List.mem_map.mpr
      ⟨track, List.mem_filter.mpr ⟨htl, by simpa using hlt⟩, rfl⟩
  · obtain ⟨track, ht, rfl⟩ := List.mem_map.mp hit
    simpa using (List.mem_filter.mp ht).2

/-- C6 witness: the characterization applied to one library record strictly
after the watermark. -/
theorem C6_witness :
    ({ title := "Audiobook 0", creator := "Author 0", type := "audiobook",
       timestamp := 5 } : MediaItem) ∈
      get_new_audiobooks
        [{ title := "Audiobook 0", author := "Author 0", date_added := 5 }]
        0 :=
  ((C6_scalar_delta
      [{ title := "Audiobook 0", author := "Author 0", date_added := 5 }]
      [] 0).1 _).mpr
    ⟨_, List.mem_cons_self _ _, by decide, rfl⟩

/-- C7: when all three sources collect successfully but the disambiguation
step fails, the vision seen-set has nevertheless already been replaced with
the new scan's identifiers during collection, while the scalar watermark is
not advanced and the iteration ends in a caught error. -/
theorem C7_vision_commit_asymmetry (env : CycleEnv) (s : TrackerState)
    (library : List RawAudioBook) (recent_tracks : List RawTrack)
    (scanned : List String) (ha : env.audible = .ok library)
    (hsp : env.spotify = .ok recent_tracks) (hv : env.vision = .ok scanned)
    (hl : env.llama_status ≠ 200) :
    (run_daily_step env s).1.last_scan = scanned.toFinset ∧
    (run_daily_step env s).1.last_update_time = s.last_update_time ∧
    (∃ e, (run_daily_step env s).2.1 = CycleOutcome.errorCaught e) := by
  obtain ⟨⟨e, he⟩, hst⟩ := generate_daily_update_llama_error env s hl
  rw [collect_new_data_ok env s library recent_tracks scanned ha hsp hv] at hst
  rcases hg : generate_daily_update env s with ⟨gr, s1⟩
  rw [hg] at he hst
  cases gr with
  | ok u => simp at he
  | error e0 =>
    have h1 : (run_daily_step env s).1 = s1 := by simp [run_daily_step, hg]
    have h2 : s1 = { s with last_scan := scanned.toFinset } := hst
    refine ⟨?_, ?_, ⟨e0, by simp [run_daily_step, hg]⟩⟩ <;> rw [h1, h2]

/-- C7 witness: a cycle that scans `["Dune"]` and then gets a 500 from the
LLaMA server. -/
theorem C7_witness :
    (run_daily_step
      { audible := .ok [], spotify := .ok [], vision := .ok ["Dune"],
        now := 9, llama_status := 500, llama_items := [], api_status := 200 }
      { last_update_time := 3, last_scan := ∅ }).1.last_scan =
        ["Dune"].toFinset ∧
    (run_daily_step
      { audible := .ok [], spotify := .ok [], vision := .ok ["Dune"],
        now := 9, llama_status := 500, llama_items := [], api_status := 200 }
      { last_update_time := 3, last_scan := ∅ }).1.last_update_time = 3 :=
  ⟨(C7_vision_commit_asymmetry _ _ [] [] ["Dune"] rfl rfl rfl
      (by decide)).1,
   (C7_vision_commit_asymmetry _ _ [] [] ["Dune"] rfl rfl rfl
      (by decide)).2.1⟩

/-- C8: when the cycle computes an update but the reporter endpoint answers
non-2xx, the failure is only logged: the iteration still ends in a `sent`
outcome carrying the failure log (no exception, no failed state), and the
scalar watermark was already advanced to the cycle's `now` before delivery
was attempted; the loop still sleeps its full period. -/
theorem C8_report_failure_logged_only (env : CycleEnv) (s : TrackerState)
    (update : DailyUpdate)
    (hgen : (generate_daily_update env s).1 = .ok update)
    (hapi : env.api_status < 200 ∨ 300 ≤ env.api_status) :
    (run_daily_step env s).2.1 =
      CycleOutcome.sent update ["Failed to send update"] ∧
    (run_daily_step env s).1.last_update_time = env.now ∧
    (run_daily_step env s).2.2 = 86400 := by
  have hwm := generate_daily_update_ok_wm env s update hgen
  have hne : env.api_status ≠ 200 := by omega
  rcases hg : generate_daily_update env s with ⟨gr, s1⟩
  rw [hg] at hgen hwm
  cases gr with
  | error e => simp at hgen
  | ok u =>
    have hu : u = update := by simpa using hgen
    subst hu
    refine ⟨?_, ?_, ?_⟩
    · simp [run_daily_step, hg, send_update_to_api, hne]
    · simpa [run_daily_step, hg] using hwm
    · simp [run_daily_step, hg]

/-- C8 witness: a successful empty cycle whose reporter answers 500. -/
theorem C8_witness :
    (run_daily_step
      { audible := .ok [], spotify := .ok [], vision := .ok [], now := 7,
        llama_status := 200, llama_items := [], api_status := 500 }
      { last_update_time := 0, last_scan := ∅ }).2.1 =
      CycleOutcome.sent { date := 7, new_items := [] }
        ["Failed to send update"] ∧
    (run_daily_step
      { audible := .ok [], spotify := .ok [], vision := .ok [], now := 7,
        llama_status := 200, llama_items := [], api_status := 500 }
      { last_update_time := 0, last_scan := ∅ }).1.last_update_time = 7 :=
  ⟨(C8_report_failure_logged_only
      { audible := .ok [], spotify := .ok [], vision := .ok [], now := 7,
        llama_status := 200, llama_items := [], api_status := 500 }
      { last_update_time := 0, last_scan := ∅ }
      { date := 7, new_items := [] } rfl (Or.inr (by decide))).1,
   (C8_report_failure_logged_only
      { audible := .ok [], spotify := .ok [], vision := .ok [], now := 7,
        llama_status := 200, llama_items := [], api_status := 500 }
      { last_update_time := 0, last_scan := ∅ }
      { date := 7, new_items := [] } rfl (Or.inr (by decide))).2.1⟩

/-- C9: the scheduler loop is total and fixed-period: over any finite
sequence of daily environments the loop records exactly one outcome per
environment (an exception escaping the cycle is caught, never terminating
the loop), every iteration — successful or failed — sleeps exactly the full
86400-second period, and a cycle that raises ends as a caught-and-logged
error followed by the same full sleep. -/
theorem C9_scheduler_fixed_period (envs : List CycleEnv) (s : TrackerState) :
    (run_daily_trace envs s).2.length = envs.length ∧
    (∀ p ∈ (run_daily_trace envs s).2, p.2 = 86400) ∧
    (∀ env e, (generate_daily_update env s).1 = .error e →
        (run_daily_step env s).2.1 = CycleOutcome.errorCaught e ∧
        (run_daily_step env s).2.2 = 86400) := by
  refine ⟨?_, ?_, ?_⟩
  · induction envs generalizing s with
    | nil => rfl
    | cons env rest ih => simp [run_daily_trace, ih]
  · induction envs generalizing s with
    | nil =>
      intro p hp
      simp [run_daily_trace] at hp
    | cons env rest ih =>
      intro p hp
      simp only [run_daily_trace, List.mem_cons] at hp
      rcases hp with rfl | hp
      · exact run_daily_step_sleep env s
      · exact ih _ p hp
  · intro env e hge
    rcases hg : generate_daily_update env s with ⟨gr, s1⟩
    rw [hg] at hge
    cases gr with
    | ok u => simp at hge
    | error e0 =>
      have he : e0 = e := by simpa using hge
      subst he
      exact ⟨by simp [run_daily_step, hg], by simp [run_daily_step, hg]⟩

/-- C9 witness: a two-day run, one failing cycle (LLaMA 500) then one
succeeding, yields exactly two outcomes. -/
theorem C9_witness :
    (run_daily_trace
      [{ audible := .ok [], spotify := .ok [], vision := .ok [], now := 1,
         llama_status := 500, llama_items := [], api_status := 200 },
       { audible := .ok [], spotify := .ok [], vision := .ok [], now := 2,
         llama_status := 200, llama_items := [], api_status := 200 }]
      { last_update_time := 0, last_scan := ∅ }).2.length = 2 :=
  (C9_scheduler_fixed_period _ _).1
